import Mathlib

/-!
Verification model of the Social Media Automation Python SDK
(`packages/backend/src/sdks/python/sma_sdk.py`).

The SDK client is embedded shallowly: JSON values are an inductive type,
the HTTP transport is an oracle (a list of transport outcomes consumed one
per issued request), and `_make_request` together with the public
operations become pure Lean functions over an explicit token state.
-/

/-- A JSON value, as produced by `response.json()` in the SDK. -/
inductive Json where
  | null : Json
  | bool (b : Bool) : Json
  | num (n : Int) : Json
  | str (s : String) : Json
  | arr (elems : List Json) : Json
  | obj (fields : List (String × Json)) : Json

/-- Python truthiness of a JSON value (`None`, `False`, `0`, `""`, `[]`,
`{}` are falsy). -/
def Json.truthy : Json → Bool
  | .null => false
  | .bool b => b
  | .num n => n != 0
  | .str s => s != ""
  | .arr l => !l.isEmpty
  | .obj l => !l.isEmpty

/-- Field lookup in an object: Python `d.get(k)` returning `None` when the
key is absent or the value is not a dict. -/
def Json.getField : Json → String → Option Json
  | .obj fields, k => fields.lookup k
  | _, _ => none

/-- Python `d.get(k, default)`. -/
def Json.getFieldD (j : Json) (k : String) (d : Json) : Json :=
  (j.getField k).getD d

/-- Python `bool(d.get(k))`: truthiness of a possibly missing field. -/
def Json.getTruthy (j : Json) (k : String) : Bool :=
  match j.getField k with
  | some v => v.truthy
  | none => false

/-- Embedding of `SMAConfig` (sma_sdk.py, lines 68-76).  `timeout` and `debug` carry no
observable behaviour in the model (the debug flag only prints); the retry
delay, a Python float only ever multiplied by powers of two, is embedded
as a rational. -/
structure SMAConfig where
  base_url : String := "https://api.sma-platform.com/api"
  api_key : Option String := none
  timeout : Nat := 30
  retry_attempts : Nat := 3
  retry_delay : ℚ := 1
  debug : Bool := false

/-- Embedding of `AuthTokens` (sma_sdk.py, lines 79-84); the fields per their declared
types, with `datetime` timestamps as natural-number seconds. -/
structure AuthTokens where
  access_token : String
  refresh_token : Option String := none
  expires_at : Option Nat := none
deriving DecidableEq, Repr

/-- Embedding of `SMAError` (sma_sdk.py, lines 148-168).  Fields copied out of a JSON
payload keep their JSON type; `details` is normalised by `details or {}`
exactly as in `__init__`. -/
structure SMAError where
  message : Json
  code : Json
  status_code : Option Nat := none
  retryable : Json := .bool false
  retry_after : Option Json := none
  request_id : Option Json := none
  details : Json := .obj []

/-- An `SMAError` built positionally, as in `SMAError(msg, code)`. -/
def mkSMAError (msg code : String) : SMAError :=
  { message := .str msg, code := .str code }

/-- The authorization header attached to a request (sma_sdk.py, lines
255-259): bearer token, API key, or nothing. -/
inductive AuthHeader where
  | bearer (tok : String) : AuthHeader
  | apiKey (key : String) : AuthHeader
  | noAuth : AuthHeader
deriving DecidableEq, Repr

/-- One issued HTTP request, as observed on the wire (method, absolute
URL, auth header, JSON body, query parameters). -/
structure IssuedRequest where
  method : String
  url : String
  auth : AuthHeader
  data : Option Json
  params : Option Json

/-- Observable events of a run: requests issued by `session.request` and
`time.sleep` calls of the retry loop. -/
inductive Event where
  | request (r : IssuedRequest) : Event
  | sleep (seconds : ℚ) : Event

/-- An HTTP response: status code, parsed JSON body (`none` when
`response.json()` raises `JSONDecodeError`), and the raw text. -/
structure HttpResponse where
  status_code : Nat
  body : Option Json
  text : String := ""

/-- Outcome of one `session.request` call: a response, or a
`requests.exceptions.RequestException` (connection error, timeout, ...). -/
inductive TransportResult where
  | exn (msg : String) : TransportResult
  | resp (r : HttpResponse) : TransportResult

/-- The transport oracle: outcomes consumed one per issued request.  An
exhausted oracle behaves as a transport exception. -/
def takeOracle : List TransportResult → TransportResult × List TransportResult
  | [] => (.exn "oracle exhausted", [])
  | t :: rest => (t, rest)

/-- Result of running a client method: the returned value or raised
`SMAError`, the token state left behind, the unconsumed oracle, and the
trace of observable events in order. -/
structure RunResult (α : Type) where
  result : Except SMAError α
  tokens : Option AuthTokens
  oracle : List TransportResult
  trace : List Event

/-- URL building (sma_sdk.py, line 248):
`f"{base_url.rstrip('/')}/{endpoint.lstrip('/')}"` — strip every trailing
slash from the base and every leading slash from the endpoint, then join
with a single slash. -/
def buildUrl (base endpoint : String) : String :=
  String.mk ((base.data.reverse.dropWhile (fun c => c == '/')).reverse)
    ++ "/" ++ String.mk (endpoint.data.dropWhile (fun c => c == '/'))

/-- Header selection (sma_sdk.py, lines 256-259): `if self.tokens and
self.tokens.access_token: ... elif self.config.api_key: ...` with Python
truthiness on the strings. -/
def authHeaderFor : Option AuthTokens → Option String → AuthHeader
  | some t, key =>
      if t.access_token ≠ "" then .bearer t.access_token
      else match key with
           | some k => if k ≠ "" then .apiKey k else .noAuth
           | none => .noAuth
  | none, key =>
      match key with
      | some k => if k ≠ "" then .apiKey k else .noAuth
      | none => .noAuth

/-- The guard of the 401 handler (sma_sdk.py, line 284): `self.tokens and
self.tokens.refresh_token`. -/
def hasRefreshToken : Option AuthTokens → Bool
  | some t =>
      match t.refresh_token with
      | some rt => rt ≠ ""
      | none => false
  | none => false

/-- Body parsing (sma_sdk.py, lines 302-305): `response.json()`, or on
`JSONDecodeError` the synthesized
`{"success": False, "error": {"message": response.text}}`. -/
def parseBody (r : HttpResponse) : Json :=
  match r.body with
  | some j => j
  | none => .obj [("success", .bool false), ("error", .obj [("message", .str r.text)])]

/-- Error mapping for a non-ok response (sma_sdk.py, lines 308-318): each
`SMAError` field is extracted from `response_data.get("error", {})` with
the defaults of the source (`f"HTTP {status}"`, `"HTTP_ERROR"`, `False`),
and `details or {}` applied by the constructor. -/
def mapHttpError (status : Nat) (response_data : Json) : SMAError :=
  let ed := response_data.getFieldD "error" (.obj [])
  { message := ed.getFieldD "message" (.str ("HTTP " ++ toString status)),
    code := ed.getFieldD "code" (.str "HTTP_ERROR"),
    status_code := some status,
    retryable := ed.getFieldD "retryable" (.bool false),
    retry_after := ed.getField "retryAfter",
    request_id := ed.getField "requestId",
    details :=
      match ed.getField "details" with
      | some j => if j.truthy then j else .obj []
      | none => .obj [] }

/-- The `response.ok` test of the requests library: status below 400. -/
def HttpResponse.ok (r : HttpResponse) : Bool :=
  r.status_code < 400

/-- Model artifact: result when the recursion fuel runs out.  Every
theorem below supplies enough fuel that this value is never produced. -/
def fuelExhausted : SMAError :=
  mkSMAError "model: fuel exhausted" "MODEL_FUEL_EXHAUSTED"

/-- Model artifact standing for a Python `KeyError`/`AttributeError` on a
malformed success envelope (e.g. `data["token"]` missing). -/
def pyRuntimeError : SMAError :=
  mkSMAError "model: python runtime error" "MODEL_PY_RUNTIME_ERROR"

/-- Post-processing of a successful `/auth/refresh` exchange
(sma_sdk.py, lines 425-431): check the envelope, then mutate
`access_token` and `expires_at` in place, keeping `refresh_token`.  The
token expiry window is `now + 15 minutes`. -/
def finishRefresh (now : Nat) (r : RunResult Json) : RunResult AuthTokens :=
  match r.result with
  | .error e => ⟨.error e, r.tokens, r.oracle, r.trace⟩
  | .ok j =>
      if j.getTruthy "success" && j.getTruthy "data" then
        match r.tokens with
        | some t =>
            match (j.getFieldD "data" .null).getField "token" with
            | some (.str tok) =>
                let t' := { t with access_token := tok, expires_at := some (now + 900) }
                ⟨.ok t', some t', r.oracle, r.trace⟩
            | _ => ⟨.error pyRuntimeError, r.tokens, r.oracle, r.trace⟩
        | none => ⟨.error pyRuntimeError, none, r.oracle, r.trace⟩
      else
        ⟨.error (mkSMAError "Token refresh failed" "TOKEN_REFRESH_FAILED"),
         r.tokens, r.oracle, r.trace⟩

/-- The refresh token held by the client, or `""` when absent (only read
under `hasRefreshToken`). -/
def refreshTokenOf : Option AuthTokens → String
  | some t => t.refresh_token.getD ""
  | none => ""

/-- The access token held by the client, or `""` when absent (only read
after a successful refresh, which always leaves a token pair). -/
def accessTokenOf : Option AuthTokens → String
  | some t => t.access_token
  | none => ""

/-- Embedding of `SocialMediaAutomationSDK._make_request` (sma_sdk.py, lines 224-335),
with the call to `self.refresh_token()` inlined as the nested
`_make_request` on `/auth/refresh` plus `finishRefresh` (its guard holds
whenever the 401 handler fires).  The structure follows the source:

* issue the request with the computed auth header;
* on a transport exception, sleep `retry_delay * 2 ^ retry_count` and
  recurse while `retry_count < retry_attempts`, else raise the retryable
  `NETWORK_ERROR`;
* on a 401 response while a refresh token is held, run the refresh; on
  refresh success reissue the original request with a bearer header built
  from the refreshed access token (a transport exception on the reissue
  is caught by the same `except Exception` and clears the tokens); on any
  refresh failure clear the tokens — either way processing continues with
  whatever response is current;
* parse the body and either return it or raise the mapped error.

`fuel` bounds the recursion depth; the urllib3 `Retry` adapter installed
on the session is transport configuration outside the SDK's own logic and
is not part of the model. -/
def makeRequest (cfg : SMAConfig) (now : Nat) :
    Nat → Option AuthTokens → List TransportResult → String → String →
    Option Json → Option Json → Nat → RunResult Json
  | 0, tokens, oracle, _, _, _, _, _ =>
      ⟨.error fuelExhausted, tokens, oracle, []⟩
  | fuel + 1, tokens, oracle, method, endpoint, data, params, retry_count =>
      let url := buildUrl cfg.base_url endpoint
      let auth := authHeaderFor tokens cfg.api_key
      let ev : Event := .request ⟨method, url, auth, data, params⟩
      match takeOracle oracle with
      | (.exn msg, oracle₁) =>
          if retry_count < cfg.retry_attempts then
            let delay := cfg.retry_delay * 2 ^ retry_count
            let r := makeRequest cfg now fuel tokens oracle₁
                       method endpoint data params (retry_count + 1)
            ⟨r.result, r.tokens, r.oracle, ev :: .sleep delay :: r.trace⟩
          else
            ⟨.error { mkSMAError ("Network error: " ++ msg) "NETWORK_ERROR" with
                        retryable := .bool true },
             tokens, oracle₁, [ev]⟩
      | (.resp resp, oracle₁) =>
          let afterAuth :
              HttpResponse × Option AuthTokens × List TransportResult × List Event :=
            if resp.status_code = 401 && hasRefreshToken tokens then
              let rr := finishRefresh now
                (makeRequest cfg now fuel tokens oracle₁ "POST" "/auth/refresh"
                  (some (.obj [("refreshToken", .str (refreshTokenOf tokens))])) none 0)
              match rr.result with
              | .ok _ =>
                  let ev₂ : Event :=
                    .request ⟨method, url, .bearer (accessTokenOf rr.tokens), data, params⟩
                  match takeOracle rr.oracle with
                  | (.resp resp₂, oracle₂) =>
                      (resp₂, rr.tokens, oracle₂, rr.trace ++ [ev₂])
                  | (.exn _, oracle₂) =>
                      (resp, none, oracle₂, rr.trace ++ [ev₂])
              | .error _ => (resp, none, rr.oracle, rr.trace)
            else
              (resp, tokens, oracle₁, [])
          match afterAuth with
          | (respF, tokensF, oracleF, traceMid) =>
              let rd := parseBody respF
              if respF.ok then
                ⟨.ok rd, tokensF, oracleF, ev :: traceMid⟩
              else
                ⟨.error (mapHttpError respF.status_code rd), tokensF, oracleF,
                 ev :: traceMid⟩

/-- Embedding of `SocialMediaAutomationSDK.refresh_token` (sma_sdk.py, lines 408-431):
the guard `not self.tokens or not self.tokens.refresh_token` raises
`NO_REFRESH_TOKEN` before any request; otherwise one `_make_request` on
`/auth/refresh` and the in-place token update. -/
def refreshTokenOp (cfg : SMAConfig) (now : Nat) (fuel : Nat)
    (tokens : Option AuthTokens) (oracle : List TransportResult) :
    RunResult AuthTokens :=
  match tokens with
  | none =>
      ⟨.error (mkSMAError "No refresh token available" "NO_REFRESH_TOKEN"),
       tokens, oracle, []⟩
  | some t =>
      match t.refresh_token with
      | none =>
          ⟨.error (mkSMAError "No refresh token available" "NO_REFRESH_TOKEN"),
           tokens, oracle, []⟩
      | some rt =>
          if rt = "" then
            ⟨.error (mkSMAError "No refresh token available" "NO_REFRESH_TOKEN"),
             tokens, oracle, []⟩
          else
            finishRefresh now
              (makeRequest cfg now fuel tokens oracle "POST" "/auth/refresh"
                (some (.obj [("refreshToken", .str rt)])) none 0)


/-- The envelope check shared by every data-returning operation:
`if not response.get("success") or not response.get("data"):` — raise the
operation's error, else hand the caller `response["data"]`.  Construction
of the typed dataclass from that data (`Post(**...)` etc.) is a field-wise
copy and is not modelled. -/
def envelopeData (msg code : String) (r : RunResult Json) : RunResult Json :=
  match r.result with
  | .error e => ⟨.error e, r.tokens, r.oracle, r.trace⟩
  | .ok j =>
      if j.getTruthy "success" && j.getTruthy "data" then
        ⟨.ok (j.getFieldD "data" .null), r.tokens, r.oracle, r.trace⟩
      else
        ⟨.error (mkSMAError msg code), r.tokens, r.oracle, r.trace⟩

/-- The envelope check of the operations that return no payload
(`delete_post`, `disconnect_platform`) and of `get_posts`:
`if not response.get("success"):` only. -/
def envelopeSuccess (msg code : String) (value : Json → Json)
    (r : RunResult Json) : RunResult Json :=
  match r.result with
  | .error e => ⟨.error e, r.tokens, r.oracle, r.trace⟩
  | .ok j =>
      if j.getTruthy "success" then
        ⟨.ok (value j), r.tokens, r.oracle, r.trace⟩
      else
        ⟨.error (mkSMAError msg code), r.tokens, r.oracle, r.trace⟩

/-- Reading of `data.get("refreshToken")` at its declared type `Optional[str]`. -/
def strField (j : Json) (k : String) : Option String :=
  match j.getField k with
  | some (.str s) => some s
  | _ => none

/-- Embedding of `login` (sma_sdk.py, lines 338-370): POST `/auth/login`, check the
envelope (`LOGIN_FAILED`), then store a fresh token pair with
`expires_at = now + 15 minutes`.  The returned `User(**data["user"])`
record is a field-wise copy and is not modelled; the operation's value is
the envelope's `data`. -/
def loginOp (cfg : SMAConfig) (now fuel : Nat) (tokens : Option AuthTokens)
    (oracle : List TransportResult) (email password : String) : RunResult Json :=
  let r := makeRequest cfg now fuel tokens oracle "POST" "/auth/login"
             (some (.obj [("email", .str email), ("password", .str password)])) none 0
  match r.result with
  | .error e => ⟨.error e, r.tokens, r.oracle, r.trace⟩
  | .ok j =>
      if j.getTruthy "success" && j.getTruthy "data" then
        let d := j.getFieldD "data" .null
        match d.getField "token" with
        | some (.str tok) =>
            let tk : AuthTokens :=
              ⟨tok, strField d "refreshToken", some (now + 900)⟩
            ⟨.ok d, some tk, r.oracle, r.trace⟩
        | _ => ⟨.error pyRuntimeError, r.tokens, r.oracle, r.trace⟩
      else
        ⟨.error (mkSMAError "Login failed" "LOGIN_FAILED"), r.tokens, r.oracle, r.trace⟩

/-- Embedding of `register` (sma_sdk.py, lines 372-406): same shape as `login` with
the `REGISTRATION_FAILED` code. -/
def registerOp (cfg : SMAConfig) (now fuel : Nat) (tokens : Option AuthTokens)
    (oracle : List TransportResult) (email password name : String) : RunResult Json :=
  let r := makeRequest cfg now fuel tokens oracle "POST" "/auth/register"
             (some (.obj [("email", .str email), ("password", .str password),
                          ("name", .str name)])) none 0
  match r.result with
  | .error e => ⟨.error e, r.tokens, r.oracle, r.trace⟩
  | .ok j =>
      if j.getTruthy "success" && j.getTruthy "data" then
        let d := j.getFieldD "data" .null
        match d.getField "token" with
        | some (.str tok) =>
            let tk : AuthTokens :=
              ⟨tok, strField d "refreshToken", some (now + 900)⟩
            ⟨.ok d, some tk, r.oracle, r.trace⟩
        | _ => ⟨.error pyRuntimeError, r.tokens, r.oracle, r.trace⟩
      else
        ⟨.error (mkSMAError "Registration failed" "REGISTRATION_FAILED"),
         r.tokens, r.oracle, r.trace⟩

/-- Embedding of `logout` (sma_sdk.py, lines 437-442): `try: self._make_request("POST",
"/auth/logout") finally: self.tokens = None`.  The `finally` clause clears
the tokens on every path; an exception from the request is not caught and
propagates to the caller. -/
def logoutOp (cfg : SMAConfig) (now fuel : Nat) (tokens : Option AuthTokens)
    (oracle : List TransportResult) : RunResult Json :=
  let r := makeRequest cfg now fuel tokens oracle "POST" "/auth/logout" none none 0
  ⟨r.result.map (fun _ => Json.null), none, r.oracle, r.trace⟩

/-- Embedding of `get_posts` (sma_sdk.py, lines 445-485): GET `/posts` with the filter
parameters (optional ones appended only when truthy), checking only
`success` (`POSTS_FETCH_FAILED`) and returning the whole envelope. -/
def getPostsOp (cfg : SMAConfig) (now fuel : Nat) (tokens : Option AuthTokens)
    (oracle : List TransportResult) (page limit : Int)
    (status platform : Option String) (sort order : String) : RunResult Json :=
  let base := [("page", Json.num page), ("limit", Json.num limit),
               ("sort", Json.str sort), ("order", Json.str order)]
  let p₁ := match status with
            | some s => if s ≠ "" then base ++ [("status", Json.str s)] else base
            | none => base
  let p₂ := match platform with
            | some s => if s ≠ "" then p₁ ++ [("platform", Json.str s)] else p₁
            | none => p₁
  envelopeSuccess "Failed to get posts" "POSTS_FETCH_FAILED" (fun j => j)
    (makeRequest cfg now fuel tokens oracle "GET" "/posts" none (some (.obj p₂)) 0)

/-- Embedding of `get_post` (sma_sdk.py, lines 487-505): GET `/posts/{id}`, envelope
check with `POST_NOT_FOUND`. -/
def getPostOp (cfg : SMAConfig) (now fuel : Nat) (tokens : Option AuthTokens)
    (oracle : List TransportResult) (post_id : String) : RunResult Json :=
  envelopeData "Post not found" "POST_NOT_FOUND"
    (makeRequest cfg now fuel tokens oracle "GET" ("/posts/" ++ post_id) none none 0)

/-- Embedding of `create_post` (sma_sdk.py, lines 507-525): POST `/posts`, envelope
check with `POST_CREATION_FAILED`. -/
def createPostOp (cfg : SMAConfig) (now fuel : Nat) (tokens : Option AuthTokens)
    (oracle : List TransportResult) (post_data : Json) : RunResult Json :=
  envelopeData "Failed to create post" "POST_CREATION_FAILED"
    (makeRequest cfg now fuel tokens oracle "POST" "/posts" (some post_data) none 0)

/-- Embedding of `update_post` (sma_sdk.py, lines 527-546): PUT `/posts/{id}`, envelope
check with `POST_UPDATE_FAILED`. -/
def updatePostOp (cfg : SMAConfig) (now fuel : Nat) (tokens : Option AuthTokens)
    (oracle : List TransportResult) (post_id : String) (post_data : Json) : RunResult Json :=
  envelopeData "Failed to update post" "POST_UPDATE_FAILED"
    (makeRequest cfg now fuel tokens oracle "PUT" ("/posts/" ++ post_id)
      (some post_data) none 0)

/-- Embedding of `delete_post` (sma_sdk.py, lines 548-561): DELETE `/posts/{id}`,
checking only `success` (`POST_DELETION_FAILED`) and returning `None`. -/
def deletePostOp (cfg : SMAConfig) (now fuel : Nat) (tokens : Option AuthTokens)
    (oracle : List TransportResult) (post_id : String) : RunResult Json :=
  envelopeSuccess "Failed to delete post" "POST_DELETION_FAILED" (fun _ => Json.null)
    (makeRequest cfg now fuel tokens oracle "DELETE" ("/posts/" ++ post_id) none none 0)

/-- Embedding of `publish_post` (sma_sdk.py, lines 563-581): POST `/posts/{id}/publish`,
envelope check with `POST_PUBLISH_FAILED`. -/
def publishPostOp (cfg : SMAConfig) (now fuel : Nat) (tokens : Option AuthTokens)
    (oracle : List TransportResult) (post_id : String) : RunResult Json :=
  envelopeData "Failed to publish post" "POST_PUBLISH_FAILED"
    (makeRequest cfg now fuel tokens oracle "POST" ("/posts/" ++ post_id ++ "/publish")
      none none 0)

/-- Embedding of `create_bulk_posts` (sma_sdk.py, lines 583-601): POST `/posts/bulk`
with `{"posts": posts}`, envelope check with `BULK_POST_CREATION_FAILED`. -/
def createBulkPostsOp (cfg : SMAConfig) (now fuel : Nat) (tokens : Option AuthTokens)
    (oracle : List TransportResult) (posts : List Json) : RunResult Json :=
  envelopeData "Failed to create bulk posts" "BULK_POST_CREATION_FAILED"
    (makeRequest cfg now fuel tokens oracle "POST" "/posts/bulk"
      (some (.obj [("posts", .arr posts)])) none 0)

/-- Embedding of `get_analytics` (sma_sdk.py, lines 604-637): GET `/posts/analytics`
with the optional date/platform parameters, envelope check with
`ANALYTICS_FETCH_FAILED`. -/
def getAnalyticsOp (cfg : SMAConfig) (now fuel : Nat) (tokens : Option AuthTokens)
    (oracle : List TransportResult)
    (start_date end_date platform : Option String) : RunResult Json :=
  let p₀ : List (String × Json) := []
  let p₁ := match start_date with
            | some s => if s ≠ "" then p₀ ++ [("startDate", Json.str s)] else p₀
            | none => p₀
  let p₂ := match end_date with
            | some s => if s ≠ "" then p₁ ++ [("endDate", Json.str s)] else p₁
            | none => p₁
  let p₃ := match platform with
            | some s => if s ≠ "" then p₂ ++ [("platform", Json.str s)] else p₂
            | none => p₂
  envelopeData "Failed to get analytics" "ANALYTICS_FETCH_FAILED"
    (makeRequest cfg now fuel tokens oracle "GET" "/posts/analytics"
      none (some (.obj p₃)) 0)

/-- Embedding of `connect_platform` (sma_sdk.py, lines 640-663): POST
`/oauth/connect/{platform}`, envelope check with
`PLATFORM_CONNECTION_FAILED`; the value is
`response["data"]["platformConnection"]`. -/
def connectPlatformOp (cfg : SMAConfig) (now fuel : Nat) (tokens : Option AuthTokens)
    (oracle : List TransportResult)
    (platform auth_code redirect_uri : String) : RunResult Json :=
  let r := envelopeData "Failed to connect platform" "PLATFORM_CONNECTION_FAILED"
    (makeRequest cfg now fuel tokens oracle "POST" ("/oauth/connect/" ++ platform)
      (some (.obj [("code", .str auth_code), ("redirectUri", .str redirect_uri)])) none 0)
  match r.result with
  | .ok d => ⟨.ok (d.getFieldD "platformConnection" .null), r.tokens, r.oracle, r.trace⟩
  | .error e => ⟨.error e, r.tokens, r.oracle, r.trace⟩

/-- Embedding of `disconnect_platform` (sma_sdk.py, lines 665-678): DELETE
`/oauth/disconnect/{platform}`, checking only `success`
(`PLATFORM_DISCONNECTION_FAILED`) and returning `None`. -/
def disconnectPlatformOp (cfg : SMAConfig) (now fuel : Nat) (tokens : Option AuthTokens)
    (oracle : List TransportResult) (platform : String) : RunResult Json :=
  envelopeSuccess "Failed to disconnect platform" "PLATFORM_DISCONNECTION_FAILED"
    (fun _ => Json.null)
    (makeRequest cfg now fuel tokens oracle "DELETE" ("/oauth/disconnect/" ++ platform)
      none none 0)

/-- Embedding of `check_health` (sma_sdk.py, lines 681-696): GET `/health`, envelope
check with `HEALTH_CHECK_FAILED`. -/
def checkHealthOp (cfg : SMAConfig) (now fuel : Nat) (tokens : Option AuthTokens)
    (oracle : List TransportResult) : RunResult Json :=
  envelopeData "Health check failed" "HEALTH_CHECK_FAILED"
    (makeRequest cfg now fuel tokens oracle "GET" "/health" none none 0)

/-- Embedding of `get_current_user` (sma_sdk.py, lines 698-713): GET `/auth/me`,
envelope check with `USER_INFO_FAILED`. -/
def getCurrentUserOp (cfg : SMAConfig) (now fuel : Nat) (tokens : Option AuthTokens)
    (oracle : List TransportResult) : RunResult Json :=
  envelopeData "Failed to get user info" "USER_INFO_FAILED"
    (makeRequest cfg now fuel tokens oracle "GET" "/auth/me" none none 0)

/-- Number of HTTP requests issued in a trace. -/
def requestCount (tr : List Event) : Nat :=
  (tr.filter fun e => match e with | .request _ => true | .sleep _ => false).length

/-- The backoff sleeps of a trace, in order. -/
def sleepDelays (tr : List Event) : List ℚ :=
  tr.filterMap fun e => match e with | .sleep d => some d | .request _ => none

/-- The event trace the retry loop produces from attempt number `rc` when
`n` further attempts follow: each failed attempt is followed by a sleep of
`delay * 2 ^ attempt` before the next one. -/
def retrySchedule (ev : Event) (delay : ℚ) : Nat → Nat → List Event
  | _, 0 => [ev]
  | rc, n + 1 => ev :: .sleep (delay * 2 ^ rc) :: retrySchedule ev delay (rc + 1) n

/-- Number of requests a trace issues against the `/auth/refresh`
endpoint of the configured base URL. -/
def refreshCallsIn (cfg : SMAConfig) (tr : List Event) : Nat :=
  (tr.filter fun e => match e with
    | .request q => q.url == buildUrl cfg.base_url "/auth/refresh"
    | .sleep _ => false).length

/-- Evolution of the token state across a client call: the tokens are
either cleared, or still the same pair with at most `access_token` and
`expires_at` rewritten — `refresh_token` is never changed in place. -/
def tokensPreserve (a b : Option AuthTokens) : Prop :=
  b = none ∨ ∃ ta tb, a = some ta ∧ b = some tb ∧ tb.refresh_token = ta.refresh_token

/-! ## General lemmas about the model -/

theorem tokensPreserve_refl (a : Option AuthTokens) : tokensPreserve a a := by
  cases a with
  | none => exact Or.inl rfl
  | some t => exact Or.inr ⟨t, t, rfl, rfl, rfl⟩

theorem tokensPreserve_none (a : Option AuthTokens) : tokensPreserve a none :=
  Or.inl rfl

theorem tokensPreserve_trans {a b c : Option AuthTokens}
    (h₁ : tokensPreserve a b) (h₂ : tokensPreserve b c) : tokensPreserve a c := by
  rcases h₂ with h₂ | ⟨tb, tc, hb, hc, hr₂⟩
  · exact Or.inl h₂
  · rcases h₁ with h₁ | ⟨ta, tb', ha, hb', hr₁⟩
    · rw [h₁] at hb; cases hb
    · rw [hb'] at hb
      cases hb
      exact Or.inr ⟨ta, tc, ha, hc, hr₂.trans hr₁⟩

/-- A successful or failed `finishRefresh` only rewrites `access_token`/`expires_at` of the token
state it is given, or leaves it alone. -/
theorem finishRefresh_preserve (now : Nat) (r : RunResult Json) :
    tokensPreserve r.tokens (finishRefresh now r).tokens := by
  unfold finishRefresh
  rcases r with ⟨res, tokens, oracle, trace⟩
  cases res with
  | error e => exact tokensPreserve_refl _
  | ok j =>
      simp only
      split
      · cases tokens with
        | none => exact tokensPreserve_none _
        | some t =>
            simp only
            split
            · exact Or.inr ⟨t, _, rfl, rfl, rfl⟩
            · exact tokensPreserve_refl _
      · exact tokensPreserve_refl _

/-- Across any `_make_request` run, the token pair is only ever cleared or
updated in place by a refresh; its `refresh_token` field survives. -/
theorem makeRequest_tokensPreserve (cfg : SMAConfig) (now : Nat) :
    ∀ (fuel : Nat) (tokens : Option AuthTokens) (oracle : List TransportResult)
      (method endpoint : String) (data params : Option Json) (rc : Nat),
      tokensPreserve tokens
        (makeRequest cfg now fuel tokens oracle method endpoint data params rc).tokens := by
  intro fuel
  induction fuel with
  | zero =>
      intro tokens oracle m e d p rc
      exact tokensPreserve_refl _
  | succ fuel ih =>
      intro tokens oracle m e d p rc
      simp only [makeRequest]
      rcases takeOracle oracle with ⟨tr, oracle₁⟩
      cases tr with
      | exn msg =>
          simp only
          split
          · exact ih tokens oracle₁ m e d p (rc + 1)
          · exact tokensPreserve_refl _
      | resp resp =>
          simp only
          split
          · have hInner := ih tokens oracle₁ "POST" "/auth/refresh"
              (some (.obj [("refreshToken", .str (refreshTokenOf tokens))])) none 0
            have hFin := finishRefresh_preserve now
              (makeRequest cfg now fuel tokens oracle₁ "POST" "/auth/refresh"
                (some (.obj [("refreshToken", .str (refreshTokenOf tokens))])) none 0)
            have hChain := tokensPreserve_trans hInner hFin
            rcases hRes : (finishRefresh now
                (makeRequest cfg now fuel tokens oracle₁ "POST" "/auth/refresh"
                  (some (.obj [("refreshToken", .str (refreshTokenOf tokens))])) none 0)).result with e' | v
            · simp only [hRes]
              split <;> exact tokensPreserve_none _
            · simp only [hRes]
              rcases hTake : takeOracle (finishRefresh now
                  (makeRequest cfg now fuel tokens oracle₁ "POST" "/auth/refresh"
                    (some (.obj [("refreshToken", .str (refreshTokenOf tokens))])) none 0)).oracle with ⟨tr₂, oracle₂⟩
              cases tr₂ with
              | resp resp₂ =>
                  simp only
                  split <;> exact hChain
              | exn msg₂ =>
                  simp only
                  split <;> exact tokensPreserve_none _
          · simp only
            split <;> exact tokensPreserve_refl _

/-- A successful `finishRefresh` stores the pair it returns, and that pair
keeps the previous `refresh_token` while getting the fresh expiry. -/
theorem finishRefresh_ok (now : Nat) (r : RunResult Json) (tk : AuthTokens)
    (h : (finishRefresh now r).result = .ok tk) :
    (finishRefresh now r).tokens = some tk ∧
    (finishRefresh now r).oracle = r.oracle ∧
    (finishRefresh now r).trace = r.trace ∧
    ∃ t', r.tokens = some t' ∧
      tk.refresh_token = t'.refresh_token ∧
      tk.expires_at = some (now + 900) := by
  unfold finishRefresh at h ⊢
  rcases r with ⟨res, tokens, oracle, trace⟩
  cases res with
  | error e => cases h
  | ok j =>
      simp only at h ⊢
      by_cases hEnv : (j.getTruthy "success" && j.getTruthy "data") = true
      · simp only [hEnv, if_true] at h ⊢
        cases tokens with
        | none => cases h
        | some t =>
            simp only at h ⊢
            rcases hTok : (j.getFieldD "data" .null).getField "token" with _ | v
            · rw [hTok] at h
              exact Except.noConfusion h
            · cases v with
              | str s =>
                  rw [hTok] at h
                  have h2 : Except.ok
                      ({ access_token := s, refresh_token := t.refresh_token,
                         expires_at := some (now + 900) } : AuthTokens) = Except.ok tk := h
                  cases h2
                  exact ⟨rfl, rfl, rfl, t, rfl, rfl, rfl⟩
              | null => rw [hTok] at h; exact Except.noConfusion h
              | bool b => rw [hTok] at h; exact Except.noConfusion h
              | num n => rw [hTok] at h; exact Except.noConfusion h
              | arr l => rw [hTok] at h; exact Except.noConfusion h
              | obj l => rw [hTok] at h; exact Except.noConfusion h
      · simp only [hEnv, if_false] at h
        cases h

/-! ## Claim theorems -/

/-- C9: every successful `refresh_token` call replaces only the
`access_token` of the held token pair and recomputes `expires_at` (to
`now + 15` minutes); the `refresh_token` field is unchanged, and the
resulting pair is exactly what the client stores. -/
theorem c9_refresh_replaces_only_access_token (cfg : SMAConfig) (now fuel : Nat)
    (t₀ : AuthTokens) (oracle : List TransportResult) (tk : AuthTokens)
    (h : (refreshTokenOp cfg now fuel (some t₀) oracle).result = .ok tk) :
    (refreshTokenOp cfg now fuel (some t₀) oracle).tokens = some tk ∧
    tk.refresh_token = t₀.refresh_token ∧
    tk.expires_at = some (now + 900) := by
  obtain ⟨ac, ort, oex⟩ := t₀
  cases ort with
  | none =>
      unfold refreshTokenOp at h
      exact Except.noConfusion h
  | some rt =>
      unfold refreshTokenOp at h ⊢
      by_cases hne : rt = ""
      · simp only [hne, if_pos rfl] at h
        exact Except.noConfusion h
      · simp only [if_neg hne] at h ⊢
        obtain ⟨hTok, -, -, t', hT', hRf, hEx⟩ := finishRefresh_ok now _ tk h
        refine ⟨hTok, ?_, hEx⟩
        have hPre := makeRequest_tokensPreserve cfg now fuel
          (some ⟨ac, some rt, oex⟩) oracle "POST" "/auth/refresh"
          (some (.obj [("refreshToken", .str rt)])) none 0
        rcases hPre with hnone | ⟨ta, tb, hta, htb, hpr⟩
        · rw [hT'] at hnone
          cases hnone
        · cases hta
          rw [hT'] at htb
          cases htb
          rw [hRf, hpr]

/-- Witness for C9 at a concrete run: a refresh against a server answering
`{success: true, data: {token: "t9"}}` keeps `refresh_token = "r"` and
stamps the new expiry. -/
theorem c9_witness :
    (refreshTokenOp {} 7 5 (some ⟨"a", some "r", some 1⟩)
        [.resp { status_code := 200,
                 body := some (.obj [("success", .bool true),
                                     ("data", .obj [("token", .str "t9")])]) }]).tokens
      = some ⟨"t9", some "r", some 907⟩ ∧
    (⟨"t9", some "r", some 907⟩ : AuthTokens).refresh_token = some "r" ∧
    (⟨"t9", some "r", some 907⟩ : AuthTokens).expires_at = some (7 + 900) := by
  have h := c9_refresh_replaces_only_access_token {} 7 5 ⟨"a", some "r", some 1⟩
    [.resp { status_code := 200,
             body := some (.obj [("success", .bool true),
                                 ("data", .obj [("token", .str "t9")])]) }]
    ⟨"t9", some "r", some 907⟩ rfl
  exact ⟨h.1, rfl, h.2.2⟩

/-- C10: when no token pair is held, or the held pair has no refresh token
(absent or empty), `refresh_token` raises `NO_REFRESH_TOKEN` without
issuing any HTTP request (no event, oracle untouched) and leaves the token
state unchanged. -/
theorem c10_refresh_guard_no_request (cfg : SMAConfig) (now fuel : Nat)
    (tokens : Option AuthTokens) (oracle : List TransportResult)
    (h : tokens = none ∨
         ∃ t, tokens = some t ∧ (t.refresh_token = none ∨ t.refresh_token = some "")) :
    (refreshTokenOp cfg now fuel tokens oracle).result
        = .error (mkSMAError "No refresh token available" "NO_REFRESH_TOKEN") ∧
    (refreshTokenOp cfg now fuel tokens oracle).tokens = tokens ∧
    (refreshTokenOp cfg now fuel tokens oracle).oracle = oracle ∧
    (refreshTokenOp cfg now fuel tokens oracle).trace = [] := by
  rcases h with h | ⟨t, ht, hrt⟩
  · subst h
    exact ⟨rfl, rfl, rfl, rfl⟩
  · subst ht
    obtain ⟨ac, ort, oex⟩ := t
    rcases hrt with h | h <;> cases h <;> exact ⟨rfl, rfl, rfl, rfl⟩

/-- Witness for C10: a client holding only an access token gets
`NO_REFRESH_TOKEN` and consumes nothing from the transport. -/
theorem c10_witness :
    (refreshTokenOp {} 0 5 (some ⟨"a", none, none⟩) [.exn "unused"]).result
        = .error (mkSMAError "No refresh token available" "NO_REFRESH_TOKEN") ∧
    (refreshTokenOp {} 0 5 (some ⟨"a", none, none⟩) [.exn "unused"]).tokens
        = some ⟨"a", none, none⟩ ∧
    (refreshTokenOp {} 0 5 (some ⟨"a", none, none⟩) [.exn "unused"]).oracle
        = [.exn "unused"] ∧
    (refreshTokenOp {} 0 5 (some ⟨"a", none, none⟩) [.exn "unused"]).trace = [] :=
  c10_refresh_guard_no_request {} 0 5 (some ⟨"a", none, none⟩) [.exn "unused"]
    (Or.inr ⟨⟨"a", none, none⟩, rfl, Or.inl rfl⟩)

/-- C6: `logout` clears the client's token pair on every path — whatever
the server invalidation call does (success, HTTP failure, transport
failure), the `finally` block leaves `tokens = None`. -/
theorem c6_logout_always_clears_tokens (cfg : SMAConfig) (now fuel : Nat)
    (tokens : Option AuthTokens) (oracle : List TransportResult) :
    (logoutOp cfg now fuel tokens oracle).tokens = none := rfl

theorem envelopeData_error (m c : String) (r : RunResult Json) (e : SMAError)
    (h : r.result = .error e) : (envelopeData m c r).result = .error e := by
  rcases r with ⟨res, tk, oracle, tr⟩
  cases res with
  | error e' =>
      cases h
      rfl
  | ok j => exact Except.noConfusion h

theorem envelopeSuccess_error (m c : String) (v : Json → Json) (r : RunResult Json)
    (e : SMAError) (h : r.result = .error e) :
    (envelopeSuccess m c v r).result = .error e := by
  rcases r with ⟨res, tk, oracle, tr⟩
  cases res with
  | error e' =>
      cases h
      rfl
  | ok j => exact Except.noConfusion h

/-- C5 counterexample: `logout` does NOT swallow the failure of its server
invalidation request.  Against a server answering HTTP 500 with an empty
JSON body, `logout` raises the mapped `HTTP_ERROR` instead of returning
normally (the source uses `try/finally` with no `except`). -/
theorem c5_counterexample_logout_raises :
    (logoutOp {} 0 1 none [.resp { status_code := 500, body := some (.obj []) }]).result
      = .error { message := .str "HTTP 500", code := .str "HTTP_ERROR",
                 status_code := some 500, retryable := .bool false,
                 retry_after := none, request_id := none, details := .obj [] } := rfl

/-- C5 (amended): `logout` clears the token pair but propagates the error
raised by its server invalidation request; and every operation propagates
the error raised by its underlying `_make_request` call — no operation
swallows it. -/
theorem c5_amended_logout_propagates (cfg : SMAConfig) (now fuel : Nat)
    (tokens : Option AuthTokens) (oracle : List TransportResult) (e : SMAError)
    (email password name pid pf code_ ruri : String) (pd : Json) (posts : List Json)
    (page limit : Int) (sort order : String)
    (hLogout : (makeRequest cfg now fuel tokens oracle "POST" "/auth/logout"
        none none 0).result = .error e)
    (hLogin : (makeRequest cfg now fuel tokens oracle "POST" "/auth/login"
        (some (.obj [("email", .str email), ("password", .str password)]))
        none 0).result = .error e)
    (hRegister : (makeRequest cfg now fuel tokens oracle "POST" "/auth/register"
        (some (.obj [("email", .str email), ("password", .str password),
                     ("name", .str name)])) none 0).result = .error e)
    (hPosts : (makeRequest cfg now fuel tokens oracle "GET" "/posts" none
        (some (.obj [("page", .num page), ("limit", .num limit),
                     ("sort", .str sort), ("order", .str order)])) 0).result = .error e)
    (hGet : (makeRequest cfg now fuel tokens oracle "GET" ("/posts/" ++ pid)
        none none 0).result = .error e)
    (hCreate : (makeRequest cfg now fuel tokens oracle "POST" "/posts"
        (some pd) none 0).result = .error e)
    (hUpdate : (makeRequest cfg now fuel tokens oracle "PUT" ("/posts/" ++ pid)
        (some pd) none 0).result = .error e)
    (hDelete : (makeRequest cfg now fuel tokens oracle "DELETE" ("/posts/" ++ pid)
        none none 0).result = .error e)
    (hPublish : (makeRequest cfg now fuel tokens oracle "POST"
        ("/posts/" ++ pid ++ "/publish") none none 0).result = .error e)
    (hBulk : (makeRequest cfg now fuel tokens oracle "POST" "/posts/bulk"
        (some (.obj [("posts", .arr posts)])) none 0).result = .error e)
    (hAnalytics : (makeRequest cfg now fuel tokens oracle "GET" "/posts/analytics"
        none (some (.obj [])) 0).result = .error e)
    (hConnect : (makeRequest cfg now fuel tokens oracle "POST"
        ("/oauth/connect/" ++ pf)
        (some (.obj [("code", .str code_), ("redirectUri", .str ruri)]))
        none 0).result = .error e)
    (hDisconnect : (makeRequest cfg now fuel tokens oracle "DELETE"
        ("/oauth/disconnect/" ++ pf) none none 0).result = .error e)
    (hHealth : (makeRequest cfg now fuel tokens oracle "GET" "/health"
        none none 0).result = .error e)
    (hMe : (makeRequest cfg now fuel tokens oracle "GET" "/auth/me"
        none none 0).result = .error e) :
    (logoutOp cfg now fuel tokens oracle).result = .error e ∧
    (logoutOp cfg now fuel tokens oracle).tokens = none ∧
    (loginOp cfg now fuel tokens oracle email password).result = .error e ∧
    (registerOp cfg now fuel tokens oracle email password name).result = .error e ∧
    (getPostsOp cfg now fuel tokens oracle page limit none none sort order).result = .error e ∧
    (getPostOp cfg now fuel tokens oracle pid).result = .error e ∧
    (createPostOp cfg now fuel tokens oracle pd).result = .error e ∧
    (updatePostOp cfg now fuel tokens oracle pid pd).result = .error e ∧
    (deletePostOp cfg now fuel tokens oracle pid).result = .error e ∧
    (publishPostOp cfg now fuel tokens oracle pid).result = .error e ∧
    (createBulkPostsOp cfg now fuel tokens oracle posts).result = .error e ∧
    (getAnalyticsOp cfg now fuel tokens oracle none none none).result = .error e ∧
    (connectPlatformOp cfg now fuel tokens oracle pf code_ ruri).result = .error e ∧
    (disconnectPlatformOp cfg now fuel tokens oracle pf).result = .error e ∧
    (checkHealthOp cfg now fuel tokens oracle).result = .error e ∧
    (getCurrentUserOp cfg now fuel tokens oracle).result = .error e := by
  refine ⟨?_, rfl, ?_, ?_, ?_, ?_, ?_, ?_, ?_, ?_, ?_, ?_, ?_, ?_, ?_, ?_⟩
  · show ((makeRequest cfg now fuel tokens oracle "POST" "/auth/logout"
        none none 0).result.map _) = .error e
    rw [hLogout]
    rfl
  · unfold loginOp
    dsimp only
    rw [hLogin]
  · unfold registerOp
    dsimp only
    rw [hRegister]
  · exact envelopeSuccess_error _ _ _ _ e hPosts
  · exact envelopeData_error _ _ _ e hGet
  · exact envelopeData_error _ _ _ e hCreate
  · exact envelopeData_error _ _ _ e hUpdate
  · exact envelopeSuccess_error _ _ _ _ e hDelete
  · exact envelopeData_error _ _ _ e hPublish
  · exact envelopeData_error _ _ _ e hBulk
  · exact envelopeData_error _ _ _ e hAnalytics
  · have h1 := envelopeData_error "Failed to connect platform"
      "PLATFORM_CONNECTION_FAILED" _ e hConnect
    unfold connectPlatformOp
    dsimp only
    rw [h1]
  · exact envelopeSuccess_error _ _ _ _ e hDisconnect
  · exact envelopeData_error _ _ _ e hHealth
  · exact envelopeData_error _ _ _ e hMe

/-- Witness for the amended C5: against a concrete HTTP 500 answer, logout
raises the mapped error yet clears the tokens, and `delete_post`
propagates the same error. -/
theorem c5_amended_witness :
    (logoutOp {} 0 1 none [.resp { status_code := 500, body := some (.obj []) }]).result
      = .error { message := .str "HTTP 500", code := .str "HTTP_ERROR",
                 status_code := some 500, retryable := .bool false,
                 retry_after := none, request_id := none, details := .obj [] } ∧
    (logoutOp {} 0 1 none [.resp { status_code := 500, body := some (.obj []) }]).tokens
      = none ∧
    (deletePostOp {} 0 1 none [.resp { status_code := 500, body := some (.obj []) }]
        "p1").result
      = .error { message := .str "HTTP 500", code := .str "HTTP_ERROR",
                 status_code := some 500, retryable := .bool false,
                 retry_after := none, request_id := none, details := .obj [] } := by
  have h := c5_amended_logout_propagates {} 0 1 none
    [.resp { status_code := 500, body := some (.obj []) }]
    { message := .str "HTTP 500", code := .str "HTTP_ERROR",
      status_code := some 500, retryable := .bool false,
      retry_after := none, request_id := none, details := .obj [] }
    "a@example.com" "pw" "n" "p1" "facebook" "c" "u" (.obj []) [] 1 20 "createdAt" "desc"
    rfl rfl rfl rfl rfl rfl rfl rfl rfl rfl rfl rfl rfl rfl rfl
  exact ⟨h.1, h.2.1, h.2.2.2.2.2.2.2.2.1⟩

/-- On a first response that is neither a transport failure nor a 401, and
whose status is a success, `_make_request` returns the parsed body and
touches nothing else. -/
theorem makeRequest_ok_response (cfg : SMAConfig) (now fuel : Nat)
    (tokens : Option AuthTokens) (rest : List TransportResult)
    (m ep : String) (d p : Option Json) (rc : Nat) (r : HttpResponse)
    (h401 : r.status_code ≠ 401) (hok : r.ok = true) :
    makeRequest cfg now (fuel + 1) tokens (.resp r :: rest) m ep d p rc =
      ⟨.ok (parseBody r), tokens, rest,
       [.request ⟨m, buildUrl cfg.base_url ep, authHeaderFor tokens cfg.api_key, d, p⟩]⟩ := by
  have hcond : (decide (r.status_code = 401) && hasRefreshToken tokens) = false := by
    simp [h401]
  simp only [makeRequest, takeOracle, hcond, Bool.false_eq_true, if_false, hok, if_true]

/-- On a first response that is not a 401-with-refresh and whose status is
a failure, `_make_request` raises the error mapped from the parsed body. -/
theorem makeRequest_err_response (cfg : SMAConfig) (now fuel : Nat)
    (tokens : Option AuthTokens) (rest : List TransportResult)
    (m ep : String) (d p : Option Json) (rc : Nat) (r : HttpResponse)
    (h401 : ¬ (r.status_code = 401 ∧ hasRefreshToken tokens = true))
    (hok : r.ok = false) :
    makeRequest cfg now (fuel + 1) tokens (.resp r :: rest) m ep d p rc =
      ⟨.error (mapHttpError r.status_code (parseBody r)), tokens, rest,
       [.request ⟨m, buildUrl cfg.base_url ep, authHeaderFor tokens cfg.api_key, d, p⟩]⟩ := by
  have hcond : (decide (r.status_code = 401) && hasRefreshToken tokens) = false := by
    by_cases h4 : r.status_code = 401
    · have : hasRefreshToken tokens = false := by
        by_contra hcon
        exact h401 ⟨h4, by revert hcon; cases hasRefreshToken tokens <;> simp⟩
      simp [this]
    · simp [h4]
  simp only [makeRequest, takeOracle, hcond, Bool.false_eq_true, if_false, hok]

theorem envelopeData_ok (m c : String) (j : Json) (tk : Option AuthTokens)
    (orc : List TransportResult) (tr : List Event) :
    (envelopeData m c ⟨.ok j, tk, orc, tr⟩).result =
      if j.getTruthy "success" && j.getTruthy "data" then .ok (j.getFieldD "data" .null)
      else .error (mkSMAError m c) := by
  unfold envelopeData
  dsimp only
  rw [apply_ite RunResult.result]

theorem envelopeSuccess_ok (m c : String) (v : Json → Json) (j : Json)
    (tk : Option AuthTokens) (orc : List TransportResult) (tr : List Event) :
    (envelopeSuccess m c v ⟨.ok j, tk, orc, tr⟩).result =
      if j.getTruthy "success" then .ok (v j) else .error (mkSMAError m c) := by
  unfold envelopeSuccess
  dsimp only
  rw [apply_ite RunResult.result]

/-- C3 counterexample: `delete_post` against HTTP 200 with envelope
`{success: true}` and NO `data` field returns normally (`None`) instead of
raising `POST_DELETION_FAILED` — the claim's universal rule fails for the
operations that check only `success`. -/
theorem c3_counterexample_delete_post_no_data :
    (deletePostOp {} 0 1 none
        [.resp { status_code := 200, body := some (.obj [("success", .bool true)]) }]
        "p1").result = .ok .null := rfl

/-- C3 (amended): on an HTTP-success response with envelope `j`, the
operations that extract a payload (`get_post`, `create_post`,
`update_post`, `publish_post`, `create_bulk_posts`, `get_analytics`,
`connect_platform`-style, `check_health`, `get_current_user`) raise their
operation-specific code exactly when `success` is falsy or `data` is
missing/falsy; but `delete_post`, `disconnect_platform` and `get_posts`
check only `success`, so a missing `data` field alone does not make them
raise. -/
theorem c3_amended_operation_specific_codes (cfg : SMAConfig) (now fuel : Nat)
    (tokens : Option AuthTokens) (j : Json) (pid pf : String) (pd : Json)
    (posts : List Json) (page limit : Int) (sort order : String) :
    ((getPostOp cfg now (fuel + 1) tokens
        [.resp { status_code := 200, body := some j }] pid).result =
      if j.getTruthy "success" && j.getTruthy "data" then .ok (j.getFieldD "data" .null)
      else .error (mkSMAError "Post not found" "POST_NOT_FOUND")) ∧
    ((createPostOp cfg now (fuel + 1) tokens
        [.resp { status_code := 200, body := some j }] pd).result =
      if j.getTruthy "success" && j.getTruthy "data" then .ok (j.getFieldD "data" .null)
      else .error (mkSMAError "Failed to create post" "POST_CREATION_FAILED")) ∧
    ((updatePostOp cfg now (fuel + 1) tokens
        [.resp { status_code := 200, body := some j }] pid pd).result =
      if j.getTruthy "success" && j.getTruthy "data" then .ok (j.getFieldD "data" .null)
      else .error (mkSMAError "Failed to update post" "POST_UPDATE_FAILED")) ∧
    ((publishPostOp cfg now (fuel + 1) tokens
        [.resp { status_code := 200, body := some j }] pid).result =
      if j.getTruthy "success" && j.getTruthy "data" then .ok (j.getFieldD "data" .null)
      else .error (mkSMAError "Failed to publish post" "POST_PUBLISH_FAILED")) ∧
    ((createBulkPostsOp cfg now (fuel + 1) tokens
        [.resp { status_code := 200, body := some j }] posts).result =
      if j.getTruthy "success" && j.getTruthy "data" then .ok (j.getFieldD "data" .null)
      else .error (mkSMAError "Failed to create bulk posts" "BULK_POST_CREATION_FAILED")) ∧
    ((getAnalyticsOp cfg now (fuel + 1) tokens
        [.resp { status_code := 200, body := some j }] none none none).result =
      if j.getTruthy "success" && j.getTruthy "data" then .ok (j.getFieldD "data" .null)
      else .error (mkSMAError "Failed to get analytics" "ANALYTICS_FETCH_FAILED")) ∧
    ((checkHealthOp cfg now (fuel + 1) tokens
        [.resp { status_code := 200, body := some j }]).result =
      if j.getTruthy "success" && j.getTruthy "data" then .ok (j.getFieldD "data" .null)
      else .error (mkSMAError "Health check failed" "HEALTH_CHECK_FAILED")) ∧
    ((getCurrentUserOp cfg now (fuel + 1) tokens
        [.resp { status_code := 200, body := some j }]).result =
      if j.getTruthy "success" && j.getTruthy "data" then .ok (j.getFieldD "data" .null)
      else .error (mkSMAError "Failed to get user info" "USER_INFO_FAILED")) ∧
    ((deletePostOp cfg now (fuel + 1) tokens
        [.resp { status_code := 200, body := some j }] pid).result =
      if j.getTruthy "success" then .ok .null
      else .error (mkSMAError "Failed to delete post" "POST_DELETION_FAILED")) ∧
    ((disconnectPlatformOp cfg now (fuel + 1) tokens
        [.resp { status_code := 200, body := some j }] pf).result =
      if j.getTruthy "success" then .ok .null
      else .error (mkSMAError "Failed to disconnect platform" "PLATFORM_DISCONNECTION_FAILED")) ∧
    ((getPostsOp cfg now (fuel + 1) tokens
        [.resp { status_code := 200, body := some j }] page limit none none sort order).result =
      if j.getTruthy "success" then .ok j
      else .error (mkSMAError "Failed to get posts" "POSTS_FETCH_FAILED")) := by
  refine ⟨?_, ?_, ?_, ?_, ?_, ?_, ?_, ?_, ?_, ?_, ?_⟩
  · unfold getPostOp
    rw [makeRequest_ok_response cfg now fuel tokens [] "GET" ("/posts/" ++ pid)
      none none 0 { status_code := 200, body := some j } (by show (200:Nat) ≠ 401; decide) rfl]
    exact envelopeData_ok _ _ j tokens [] _
  · unfold createPostOp
    rw [makeRequest_ok_response cfg now fuel tokens [] "POST" "/posts"
      (some pd) none 0 { status_code := 200, body := some j } (by show (200:Nat) ≠ 401; decide) rfl]
    exact envelopeData_ok _ _ j tokens [] _
  · unfold updatePostOp
    rw [makeRequest_ok_response cfg now fuel tokens [] "PUT" ("/posts/" ++ pid)
      (some pd) none 0 { status_code := 200, body := some j } (by show (200:Nat) ≠ 401; decide) rfl]
    exact envelopeData_ok _ _ j tokens [] _
  · unfold publishPostOp
    rw [makeRequest_ok_response cfg now fuel tokens [] "POST" ("/posts/" ++ pid ++ "/publish")
      none none 0 { status_code := 200, body := some j } (by show (200:Nat) ≠ 401; decide) rfl]
    exact envelopeData_ok _ _ j tokens [] _
  · unfold createBulkPostsOp
    rw [makeRequest_ok_response cfg now fuel tokens [] "POST" "/posts/bulk"
      (some (.obj [("posts", .arr posts)])) none 0
      { status_code := 200, body := some j } (by show (200:Nat) ≠ 401; decide) rfl]
    exact envelopeData_ok _ _ j tokens [] _
  · unfold getAnalyticsOp
    dsimp only
    rw [makeRequest_ok_response cfg now fuel tokens [] "GET" "/posts/analytics"
      none (some (.obj [])) 0 { status_code := 200, body := some j } (by show (200:Nat) ≠ 401; decide) rfl]
    exact envelopeData_ok _ _ j tokens [] _
  · unfold checkHealthOp
    rw [makeRequest_ok_response cfg now fuel tokens [] "GET" "/health"
      none none 0 { status_code := 200, body := some j } (by show (200:Nat) ≠ 401; decide) rfl]
    exact envelopeData_ok _ _ j tokens [] _
  · unfold getCurrentUserOp
    rw [makeRequest_ok_response cfg now fuel tokens [] "GET" "/auth/me"
      none none 0 { status_code := 200, body := some j } (by show (200:Nat) ≠ 401; decide) rfl]
    exact envelopeData_ok _ _ j tokens [] _
  · unfold deletePostOp
    rw [makeRequest_ok_response cfg now fuel tokens [] "DELETE" ("/posts/" ++ pid)
      none none 0 { status_code := 200, body := some j } (by show (200:Nat) ≠ 401; decide) rfl]
    exact envelopeSuccess_ok _ _ _ j tokens [] _
  · unfold disconnectPlatformOp
    rw [makeRequest_ok_response cfg now fuel tokens [] "DELETE" ("/oauth/disconnect/" ++ pf)
      none none 0 { status_code := 200, body := some j } (by show (200:Nat) ≠ 401; decide) rfl]
    exact envelopeSuccess_ok _ _ _ j tokens [] _
  · unfold getPostsOp
    dsimp only
    rw [makeRequest_ok_response cfg now fuel tokens [] "GET" "/posts" none
      (some (.obj [("page", Json.num page), ("limit", Json.num limit),
                   ("sort", Json.str sort), ("order", Json.str order)])) 0
      { status_code := 200, body := some j } (by show (200:Nat) ≠ 401; decide) rfl]
    exact envelopeSuccess_ok _ _ _ j tokens [] _

theorem mapHttpError_details (st : Nat) (rd : Json) :
    (mapHttpError st rd).details =
      if ((rd.getFieldD "error" (.obj [])).getFieldD "details" .null).truthy
      then (rd.getFieldD "error" (.obj [])).getFieldD "details" .null
      else .obj [] := by
  unfold mapHttpError Json.getFieldD
  dsimp only
  cases ((rd.getField "error").getD (Json.obj [])).getField "details" with
  | none => rfl
  | some dj => rfl

/-- C7: on an HTTP failure status (not the 401-with-refresh case, which
claim C1 covers), `_make_request` raises exactly the error mapped from the
response body: each `SMAError` field is taken from the payload's `error`
member with the source's defaults (`code` falling back to `"HTTP_ERROR"`,
`message` to `"HTTP <status>"`, `retryable` to `False`), and a body that
fails JSON parsing is replaced by the synthesized
`{"success": false, "error": {"message": <raw text>}}` payload, so the
raised message is the raw response text. -/
theorem c7_error_mapping (cfg : SMAConfig) (now fuel : Nat)
    (tokens : Option AuthTokens) (rest : List TransportResult)
    (m ep : String) (d p : Option Json) (rc : Nat) (r : HttpResponse)
    (h401 : ¬ (r.status_code = 401 ∧ hasRefreshToken tokens = true))
    (hok : r.ok = false) :
    (makeRequest cfg now (fuel + 1) tokens (.resp r :: rest) m ep d p rc).result
        = .error (mapHttpError r.status_code (parseBody r)) ∧
    (mapHttpError r.status_code (parseBody r)).code
        = ((parseBody r).getFieldD "error" (.obj [])).getFieldD "code" (.str "HTTP_ERROR") ∧
    (mapHttpError r.status_code (parseBody r)).message
        = ((parseBody r).getFieldD "error" (.obj [])).getFieldD "message"
            (.str ("HTTP " ++ toString r.status_code)) ∧
    (mapHttpError r.status_code (parseBody r)).status_code = some r.status_code ∧
    (mapHttpError r.status_code (parseBody r)).retryable
        = ((parseBody r).getFieldD "error" (.obj [])).getFieldD "retryable" (.bool false) ∧
    (mapHttpError r.status_code (parseBody r)).retry_after
        = ((parseBody r).getFieldD "error" (.obj [])).getField "retryAfter" ∧
    (mapHttpError r.status_code (parseBody r)).request_id
        = ((parseBody r).getFieldD "error" (.obj [])).getField "requestId" ∧
    (mapHttpError r.status_code (parseBody r)).details
        = (if (((parseBody r).getFieldD "error" (.obj [])).getFieldD "details" .null).truthy
           then ((parseBody r).getFieldD "error" (.obj [])).getFieldD "details" .null
           else .obj []) ∧
    parseBody { status_code := r.status_code, body := none, text := r.text }
        = .obj [("success", .bool false), ("error", .obj [("message", .str r.text)])] ∧
    (mapHttpError r.status_code
        (parseBody { status_code := r.status_code, body := none, text := r.text })).message
        = .str r.text := by
  refine ⟨?_, rfl, rfl, rfl, rfl, rfl, rfl, mapHttpError_details _ _, rfl, rfl⟩
  rw [makeRequest_err_response cfg now fuel tokens rest m ep d p rc r h401 hok]

/-- Witness for C7: a 404 with a structured payload maps every field, and
a 502 with an unparseable body surfaces the raw text as the message. -/
theorem c7_witness :
    (makeRequest {} 0 1 none
        [.resp { status_code := 404,
                 body := some (.obj [("error",
                   .obj [("message", .str "nope"), ("code", .str "POST_NOT_FOUND"),
                         ("retryable", .bool false), ("retryAfter", .num 5),
                         ("requestId", .str "rq1"),
                         ("details", .obj [("k", .str "v")])])])}]
        "GET" "/posts/x" none none 0).result
      = .error { message := .str "nope", code := .str "POST_NOT_FOUND",
                 status_code := some 404, retryable := .bool false,
                 retry_after := some (.num 5), request_id := some (.str "rq1"),
                 details := .obj [("k", .str "v")] } ∧
    (mapHttpError 502
        (parseBody { status_code := 502, body := none, text := "Bad Gateway" })).message
      = .str "Bad Gateway" := by
  have h := c7_error_mapping {} 0 0 none [] "GET" "/posts/x" none none 0
    { status_code := 404,
      body := some (.obj [("error",
        .obj [("message", .str "nope"), ("code", .str "POST_NOT_FOUND"),
              ("retryable", .bool false), ("retryAfter", .num 5),
              ("requestId", .str "rq1"),
              ("details", .obj [("k", .str "v")])])]) }
    (by intro hc; exact absurd hc.1 (by decide)) rfl
  have h2 := c7_error_mapping {} 0 0 none [] "GET" "/posts/x" none none 0
    { status_code := 502, body := none, text := "Bad Gateway" }
    (by intro hc; exact absurd hc.1 (by decide)) rfl
  exact ⟨h.1, h2.2.2.2.2.2.2.2.2.2⟩

/-- Full description of `_make_request` on a run of consecutive transport
failures: starting at attempt `rc` with exactly enough failures to exhaust
the budget, it produces the retryable `NETWORK_ERROR` built from the last
failure and the interleaved request/sleep schedule. -/
theorem makeRequest_all_exn (cfg : SMAConfig) (now : Nat)
    (tokens : Option AuthTokens) (m ep : String) (d p : Option Json)
    (rest : List TransportResult) :
    ∀ (msgs : List String) (fuel rc : Nat), msgs ≠ [] →
      msgs.length ≤ fuel → rc + msgs.length = cfg.retry_attempts + 1 →
      makeRequest cfg now fuel tokens (msgs.map .exn ++ rest) m ep d p rc =
        ⟨.error { mkSMAError ("Network error: " ++ msgs.getLastD "") "NETWORK_ERROR" with
                    retryable := .bool true },
         tokens, rest,
         retrySchedule
           (.request ⟨m, buildUrl cfg.base_url ep, authHeaderFor tokens cfg.api_key, d, p⟩)
           cfg.retry_delay rc (msgs.length - 1)⟩ := by
  intro msgs
  induction msgs with
  | nil => intro fuel rc hne _ _; exact absurd rfl hne
  | cons msg tl IH =>
      intro fuel rc _ hfuel hlen
      cases fuel with
      | zero => simp at hfuel
      | succ f =>
          cases tl with
          | nil =>
              have hrc : rc = cfg.retry_attempts := by
                simpa using hlen
              simp only [List.map_cons, List.map_nil, List.nil_append,
                List.cons_append, makeRequest, takeOracle]
              rw [if_neg (by rw [hrc]; exact lt_irrefl _)]
              rfl
          | cons m2 tl' =>
              have hlt : rc < cfg.retry_attempts := by
                simp only [List.length_cons] at hlen
                omega
              have hf : (m2 :: tl').length ≤ f := by
                simp only [List.length_cons] at hfuel ⊢
                omega
              have hl : (rc + 1) + (m2 :: tl').length = cfg.retry_attempts + 1 := by
                simp only [List.length_cons] at hlen ⊢
                omega
              simp only [List.map_cons, List.cons_append] at IH
              simp only [List.map_cons, List.cons_append, makeRequest, takeOracle]
              rw [if_pos hlt,
                IH f (rc + 1) (by simp) hf hl]
              rfl

theorem retrySchedule_requestCount (q : IssuedRequest) (delay : ℚ) :
    ∀ (n rc : Nat), requestCount (retrySchedule (.request q) delay rc n) = n + 1 := by
  intro n
  induction n with
  | zero => intro rc; rfl
  | succ n ih =>
      intro rc
      show requestCount (retrySchedule (.request q) delay (rc + 1) n) + 1 = n + 1 + 1
      rw [ih (rc + 1)]

theorem retrySchedule_sleepDelays (q : IssuedRequest) (delay : ℚ) :
    ∀ (n rc : Nat), sleepDelays (retrySchedule (.request q) delay rc n)
      = (List.range n).map (fun k => delay * 2 ^ (rc + k)) := by
  intro n
  induction n with
  | zero => intro rc; rfl
  | succ n ih =>
      intro rc
      show (delay * 2 ^ rc) :: sleepDelays (retrySchedule (.request q) delay (rc + 1) n) = _
      rw [ih (rc + 1), List.range_succ_eq_map, List.map_cons, List.map_map]
      congr 1
      apply List.map_congr_left
      intro k _
      simp only [Function.comp_apply]
      have hk : rc + 1 + k = rc + (k + 1) := by omega
      rw [hk]

/-- C2: a run of consecutive transport failures makes `_make_request`
issue exactly `retry_attempts + 1` attempts, sleeping
`retry_delay * 2 ^ attempt` between attempt `attempt` and attempt
`attempt + 1` (the trace is the interleaved schedule), and finally raise a
retryable `NETWORK_ERROR` built from the last failure. -/
theorem c2_network_retry_schedule (cfg : SMAConfig) (now : Nat)
    (tokens : Option AuthTokens) (rest : List TransportResult)
    (m ep : String) (d p : Option Json) (msgs : List String) (fuel : Nat)
    (hne : msgs ≠ []) (hlen : msgs.length = cfg.retry_attempts + 1)
    (hfuel : cfg.retry_attempts + 1 ≤ fuel) :
    (makeRequest cfg now fuel tokens (msgs.map .exn ++ rest) m ep d p 0).result
        = .error { mkSMAError ("Network error: " ++ msgs.getLastD "") "NETWORK_ERROR" with
                     retryable := .bool true } ∧
    requestCount (makeRequest cfg now fuel tokens (msgs.map .exn ++ rest) m ep d p 0).trace
        = cfg.retry_attempts + 1 ∧
    sleepDelays (makeRequest cfg now fuel tokens (msgs.map .exn ++ rest) m ep d p 0).trace
        = (List.range cfg.retry_attempts).map (fun k => cfg.retry_delay * 2 ^ k) ∧
    (makeRequest cfg now fuel tokens (msgs.map .exn ++ rest) m ep d p 0).trace
        = retrySchedule
            (.request ⟨m, buildUrl cfg.base_url ep, authHeaderFor tokens cfg.api_key, d, p⟩)
            cfg.retry_delay 0 cfg.retry_attempts ∧
    (makeRequest cfg now fuel tokens (msgs.map .exn ++ rest) m ep d p 0).tokens = tokens ∧
    (makeRequest cfg now fuel tokens (msgs.map .exn ++ rest) m ep d p 0).oracle = rest := by
  have h := makeRequest_all_exn cfg now tokens m ep d p rest msgs fuel 0 hne
    (by omega) (by omega)
  have hn : msgs.length - 1 = cfg.retry_attempts := by omega
  rw [h]
  refine ⟨rfl, ?_, ?_, ?_, rfl, rfl⟩
  · show requestCount (retrySchedule _ _ 0 (msgs.length - 1)) = _
    rw [retrySchedule_requestCount, hn]
  · show sleepDelays (retrySchedule _ _ 0 (msgs.length - 1)) = _
    rw [retrySchedule_sleepDelays, hn]
    simp only [Nat.zero_add]
  · show retrySchedule _ _ 0 (msgs.length - 1) = _
    rw [hn]

/-- Witness for C2 with `retry_attempts = 2`: three attempts, sleeps of
one and two seconds, and the final retryable `NETWORK_ERROR`. -/
theorem c2_witness :
    (makeRequest { retry_attempts := 2 } 0 5 none
        [.exn "e1", .exn "e2", .exn "e3"] "GET" "/health" none none 0).result
        = .error { mkSMAError "Network error: e3" "NETWORK_ERROR" with
                     retryable := .bool true } ∧
    requestCount (makeRequest { retry_attempts := 2 } 0 5 none
        [.exn "e1", .exn "e2", .exn "e3"] "GET" "/health" none none 0).trace = 3 ∧
    sleepDelays (makeRequest { retry_attempts := 2 } 0 5 none
        [.exn "e1", .exn "e2", .exn "e3"] "GET" "/health" none none 0).trace
        = [1, 2] := by
  have h := c2_network_retry_schedule { retry_attempts := 2 } 0 none []
    "GET" "/health" none none ["e1", "e2", "e3"] 5
    (by simp) rfl (by decide)
  simp only [List.map_cons, List.map_nil, List.nil_append, List.append_nil] at h
  refine ⟨h.1, h.2.1, ?_⟩
  rw [h.2.2.1]
  norm_num [List.range_succ]

/-- The first observable event of any `_make_request` run (with fuel) is
the original request, carrying the auth header computed from the current
token state and API key. -/
theorem makeRequest_first_event (cfg : SMAConfig) (now fuel : Nat)
    (tokens : Option AuthTokens) (oracle : List TransportResult)
    (m ep : String) (d p : Option Json) (rc : Nat) :
    (makeRequest cfg now (fuel + 1) tokens oracle m ep d p rc).trace.head? =
      some (.request ⟨m, buildUrl cfg.base_url ep,
                       authHeaderFor tokens cfg.api_key, d, p⟩) := by
  simp only [makeRequest]
  cases oracle with
  | nil =>
      simp only [takeOracle]
      split <;> rfl
  | cons t rest =>
      cases t with
      | exn msg =>
          simp only [takeOracle]
          split <;> rfl
      | resp r =>
          simp only [takeOracle]
          repeat' split
          all_goals rfl

/-- C8: the authorization header follows strict precedence — bearer token
when a pair with a (non-empty) access token is held, else the API key
header when a (non-empty) key is configured, else no auth header; every
request's first issued call carries exactly that header, and after a
successful login returning token `tok`, a subsequent request carries
`Authorization: Bearer tok`. -/
theorem c8_auth_precedence_and_login (cfg : SMAConfig) (now fuel : Nat)
    (tokens : Option AuthTokens) (oracle oracle₂ : List TransportResult)
    (m ep : String) (d p : Option Json) (rc : Nat)
    (t : AuthTokens) (key : Option String) (k : String)
    (rto : Option String) (exo : Option Nat)
    (j : Json) (tok email password : String)
    (hAcc : t.access_token ≠ "") (hKey : k ≠ "")
    (hS : j.getTruthy "success" = true) (hD : j.getTruthy "data" = true)
    (hTok : (j.getFieldD "data" .null).getField "token" = some (.str tok))
    (hNe : tok ≠ "") :
    authHeaderFor (some t) key = .bearer t.access_token ∧
    authHeaderFor none (some k) = .apiKey k ∧
    authHeaderFor (some ⟨"", rto, exo⟩) (some k) = .apiKey k ∧
    authHeaderFor none none = .noAuth ∧
    authHeaderFor (some ⟨"", rto, exo⟩) none = .noAuth ∧
    (makeRequest cfg now (fuel + 1) tokens oracle m ep d p rc).trace.head? =
      some (.request ⟨m, buildUrl cfg.base_url ep,
                       authHeaderFor tokens cfg.api_key, d, p⟩) ∧
    (loginOp cfg now (fuel + 1) tokens [.resp { status_code := 200, body := some j }]
        email password).tokens
      = some ⟨tok, strField (j.getFieldD "data" .null) "refreshToken", some (now + 900)⟩ ∧
    (makeRequest cfg now (fuel + 1)
        (loginOp cfg now (fuel + 1) tokens [.resp { status_code := 200, body := some j }]
          email password).tokens
        oracle₂ m ep d p rc).trace.head? =
      some (.request ⟨m, buildUrl cfg.base_url ep, .bearer tok, d, p⟩) := by
  have hLogin : (loginOp cfg now (fuel + 1) tokens
      [.resp { status_code := 200, body := some j }] email password).tokens
      = some ⟨tok, strField (j.getFieldD "data" .null) "refreshToken", some (now + 900)⟩ := by
    unfold loginOp
    dsimp only
    rw [makeRequest_ok_response cfg now fuel tokens [] "POST" "/auth/login"
      (some (.obj [("email", .str email), ("password", .str password)])) none 0
      { status_code := 200, body := some j } (by show (200:Nat) ≠ 401; decide) rfl]
    simp [show parseBody { status_code := 200, body := some j } = j from rfl, hS, hD, hTok]
  refine ⟨by simp [authHeaderFor, hAcc], by simp [authHeaderFor, hKey],
    by simp [authHeaderFor, hKey], rfl, rfl,
    makeRequest_first_event cfg now fuel tokens oracle m ep d p rc, hLogin, ?_⟩
  rw [hLogin, makeRequest_first_event]
  have : authHeaderFor
      (some ⟨tok, strField (j.getFieldD "data" .null) "refreshToken", some (now + 900)⟩)
      cfg.api_key = .bearer tok := by
    simp [authHeaderFor, hNe]
  rw [this]

/-- Witness for C8: concrete precedence checks and the login-then-bearer
flow with token `"t1"`. -/
theorem c8_witness :
    authHeaderFor (some ⟨"a", none, none⟩) (some "k") = .bearer "a" ∧
    authHeaderFor none (some "k") = .apiKey "k" ∧
    (makeRequest {} 0 1
        (loginOp {} 0 1 (some ⟨"a", none, none⟩)
          [.resp { status_code := 200,
                   body := some (.obj [("success", .bool true),
                     ("data", .obj [("token", .str "t1"),
                                    ("user", .obj [("id", .str "u1")])])]) }]
          "a@example.com" "pw").tokens
        [.exn "y"] "GET" "/posts" none none 0).trace.head? =
      some (.request ⟨"GET", buildUrl "https://api.sma-platform.com/api" "/posts",
                      .bearer "t1", none, none⟩) := by
  have h := c8_auth_precedence_and_login {} 0 0 (some ⟨"a", none, none⟩)
    [.exn "x"] [.exn "y"] "GET" "/posts" none none 0
    ⟨"a", none, none⟩ (some "k") "k" none none
    (.obj [("success", .bool true),
           ("data", .obj [("token", .str "t1"), ("user", .obj [("id", .str "u1")])])])
    "t1" "a@example.com" "pw"
    (by decide) (by decide) rfl rfl rfl (by decide)
  exact ⟨h.1, h.2.1, h.2.2.2.2.2.2.2⟩

/-- The `finishRefresh` step never touches the oracle or the trace. -/
theorem finishRefresh_frame (now : Nat) (r : RunResult Json) :
    (finishRefresh now r).oracle = r.oracle ∧ (finishRefresh now r).trace = r.trace := by
  unfold finishRefresh
  rcases r with ⟨res, tokens, oracle, trace⟩
  cases res with
  | error e => exact ⟨rfl, rfl⟩
  | ok j =>
      dsimp only
      split
      · cases tokens with
        | none => exact ⟨rfl, rfl⟩
        | some t =>
            dsimp only
            cases (j.getFieldD "data" .null).getField "token" with
            | none => exact ⟨rfl, rfl⟩
            | some v => cases v <;> exact ⟨rfl, rfl⟩
      · exact ⟨rfl, rfl⟩

/-- C1 counterexample: a server that answers 401 to the refresh request as
well makes the client issue THREE HTTP calls to `/auth/refresh` for a
single original request whose first response was 401 (the refresh recurses
through `_make_request`), not exactly one. -/
theorem c1_counterexample_three_refresh_calls :
    refreshCallsIn {}
      (makeRequest {} 0 10 (some ⟨"a", some "r", none⟩)
        [.resp { status_code := 401, body := some (.obj []) },
         .resp { status_code := 401, body := some (.obj []) },
         .resp { status_code := 200,
                 body := some (.obj [("success", .bool true),
                                     ("data", .obj [("token", .str "t2")])]) },
         .resp { status_code := 200,
                 body := some (.obj [("success", .bool true),
                                     ("data", .obj [("token", .str "t3")])]) },
         .resp { status_code := 200,
                 body := some (.obj [("success", .bool true),
                                     ("data", .obj [("id", .str "p1")])]) }]
        "GET" "/posts/p1" none none 0).trace = 3 := rfl

/-- C1 (amended): on a 401 first response with a refresh token held, and
with the refresh exchange itself answered by a single non-401 HTTP
response, `_make_request` performs exactly one refresh call (one HTTP
request to `/auth/refresh`); when the refresh succeeds it reissues the
original request exactly once, with a bearer header holding the refreshed
access token; when the refresh fails it clears the token pair, raises the
error mapped from the original 401 response, and does not reissue.  (When
the refresh request itself gets a 401 or transport failures, the code
recurses and can issue further refresh calls — see the counterexample.) -/
theorem c1_amended_refresh_retry (cfg : SMAConfig) (now fuel : Nat)
    (ac rt : String) (oex : Option Nat)
    (r r' : HttpResponse) (rest : List TransportResult)
    (m ep : String) (d p : Option Json) (rc : Nat)
    (hr : r.status_code = 401) (hne : rt ≠ "") (h401' : r'.status_code ≠ 401) :
    (refreshTokenOp cfg now (fuel + 1) (some ⟨ac, some rt, oex⟩) (.resp r' :: rest)).trace
      = [.request ⟨"POST", buildUrl cfg.base_url "/auth/refresh",
           authHeaderFor (some ⟨ac, some rt, oex⟩) cfg.api_key,
           some (.obj [("refreshToken", .str rt)]), none⟩] ∧
    (∀ tk : AuthTokens,
      (refreshTokenOp cfg now (fuel + 1) (some ⟨ac, some rt, oex⟩)
          (.resp r' :: rest)).result = .ok tk →
      (makeRequest cfg now (fuel + 2) (some ⟨ac, some rt, oex⟩)
          (.resp r :: .resp r' :: rest) m ep d p rc).trace
        = [.request ⟨m, buildUrl cfg.base_url ep,
             authHeaderFor (some ⟨ac, some rt, oex⟩) cfg.api_key, d, p⟩,
           .request ⟨"POST", buildUrl cfg.base_url "/auth/refresh",
             authHeaderFor (some ⟨ac, some rt, oex⟩) cfg.api_key,
             some (.obj [("refreshToken", .str rt)]), none⟩,
           .request ⟨m, buildUrl cfg.base_url ep, .bearer tk.access_token, d, p⟩]) ∧
    (∀ e : SMAError,
      (refreshTokenOp cfg now (fuel + 1) (some ⟨ac, some rt, oex⟩)
          (.resp r' :: rest)).result = .error e →
      (makeRequest cfg now (fuel + 2) (some ⟨ac, some rt, oex⟩)
          (.resp r :: .resp r' :: rest) m ep d p rc).result
          = .error (mapHttpError r.status_code (parseBody r)) ∧
      (makeRequest cfg now (fuel + 2) (some ⟨ac, some rt, oex⟩)
          (.resp r :: .resp r' :: rest) m ep d p rc).tokens = none ∧
      (makeRequest cfg now (fuel + 2) (some ⟨ac, some rt, oex⟩)
          (.resp r :: .resp r' :: rest) m ep d p rc).trace
        = [.request ⟨m, buildUrl cfg.base_url ep,
             authHeaderFor (some ⟨ac, some rt, oex⟩) cfg.api_key, d, p⟩,
           .request ⟨"POST", buildUrl cfg.base_url "/auth/refresh",
             authHeaderFor (some ⟨ac, some rt, oex⟩) cfg.api_key,
             some (.obj [("refreshToken", .str rt)]), none⟩]) := by
  set tks : Option AuthTokens := some ⟨ac, some rt, oex⟩ with htks
  set R : RunResult Json := makeRequest cfg now (fuel + 1) tks (.resp r' :: rest)
    "POST" "/auth/refresh" (some (.obj [("refreshToken", .str rt)])) none 0 with hRdef
  have hR : R.tokens = tks ∧ R.oracle = rest ∧
      R.trace = [.request ⟨"POST", buildUrl cfg.base_url "/auth/refresh",
        authHeaderFor tks cfg.api_key, some (.obj [("refreshToken", .str rt)]), none⟩] := by
    rw [hRdef]
    by_cases hok' : r'.ok = true
    · rw [makeRequest_ok_response cfg now fuel tks rest "POST" "/auth/refresh"
        (some (.obj [("refreshToken", .str rt)])) none 0 r' h401' hok']
      exact ⟨rfl, rfl, rfl⟩
    · rw [makeRequest_err_response cfg now fuel tks rest "POST" "/auth/refresh"
        (some (.obj [("refreshToken", .str rt)])) none 0 r'
        (fun hcon => h401' hcon.1) (by revert hok'; cases r'.ok <;> simp)]
      exact ⟨rfl, rfl, rfl⟩
  have hrto : refreshTokenOf tks = rt := by
    rw [htks]
    rfl
  have hRR : refreshTokenOp cfg now (fuel + 1) tks (.resp r' :: rest)
      = finishRefresh now R := by
    rw [htks]
    simp only [refreshTokenOp, if_neg hne]
  have hcond : (decide (r.status_code = 401) && hasRefreshToken tks) = true := by
    simp [hr, hasRefreshToken, htks, hne]
  have hrok : r.ok = false := by
    simp [HttpResponse.ok, hr]
  have hMain : makeRequest cfg now (fuel + 2) tks (.resp r :: .resp r' :: rest) m ep d p rc
      = (match (finishRefresh now R).result with
         | .ok _ =>
             let ev₂ : Event := .request ⟨m, buildUrl cfg.base_url ep,
               .bearer (accessTokenOf (finishRefresh now R).tokens), d, p⟩
             match takeOracle (finishRefresh now R).oracle with
             | (.resp resp₂, oracle₂) =>
                 if resp₂.ok then
                   ⟨.ok (parseBody resp₂), (finishRefresh now R).tokens, oracle₂,
                    .request ⟨m, buildUrl cfg.base_url ep, authHeaderFor tks cfg.api_key, d, p⟩
                      :: ((finishRefresh now R).trace ++ [ev₂])⟩
                 else
                   ⟨.error (mapHttpError resp₂.status_code (parseBody resp₂)),
                    (finishRefresh now R).tokens, oracle₂,
                    .request ⟨m, buildUrl cfg.base_url ep, authHeaderFor tks cfg.api_key, d, p⟩
                      :: ((finishRefresh now R).trace ++ [ev₂])⟩
             | (.exn _, oracle₂) =>
                 ⟨.error (mapHttpError r.status_code (parseBody r)), none, oracle₂,
                  .request ⟨m, buildUrl cfg.base_url ep, authHeaderFor tks cfg.api_key, d, p⟩
                    :: ((finishRefresh now R).trace ++ [ev₂])⟩
         | .error _ =>
             ⟨.error (mapHttpError r.status_code (parseBody r)), none,
              (finishRefresh now R).oracle,
              .request ⟨m, buildUrl cfg.base_url ep, authHeaderFor tks cfg.api_key, d, p⟩
                :: (finishRefresh now R).trace⟩) := by
    rw [show (fuel + 2) = (fuel + 1) + 1 from rfl, makeRequest]
    simp only [takeOracle, hcond, if_true, hrto, ← hRdef]
    rcases (finishRefresh now R).result with e | v
    · simp only [hrok, Bool.false_eq_true, if_false]
    · rcases hOr : (finishRefresh now R).oracle with _ | ⟨t2, rest2⟩
      · simp [hrok]
      · cases t2 with
        | resp resp₂ => rfl
        | exn msg => simp [hrok]
  refine ⟨?_, ?_, ?_⟩
  · rw [hRR, (finishRefresh_frame now R).2, hR.2.2]
  · intro tk htk
    rw [hRR] at htk
    obtain ⟨hTk, -, -, -⟩ := finishRefresh_ok now R tk htk
    rw [hMain, htk]
    rw [(finishRefresh_frame now R).1, hR.2.1, hTk]
    cases rest with
    | nil =>
        simp only [takeOracle]
        rw [(finishRefresh_frame now R).2, hR.2.2]
        rfl
    | cons t2 rest2 =>
        cases t2 with
        | resp resp₂ =>
            simp only [takeOracle]
            rw [apply_ite RunResult.trace]
            rw [(finishRefresh_frame now R).2, hR.2.2]
            simp only [ite_self]
            rfl
        | exn msg =>
            simp only [takeOracle]
            rw [(finishRefresh_frame now R).2, hR.2.2]
            rfl
  · intro e he
    rw [hRR] at he
    rw [hMain, he]
    refine ⟨rfl, rfl, ?_⟩
    rw [(finishRefresh_frame now R).2, hR.2.2]

/-- Witness for the amended C1: a 401 answered by one successful refresh
and a reissued request carrying the refreshed token `"t2"`. -/
theorem c1_amended_witness :
    (makeRequest {} 0 3 (some ⟨"a", some "r", none⟩)
        [.resp { status_code := 401, body := some (.obj []) },
         .resp { status_code := 200,
                 body := some (.obj [("success", .bool true),
                                     ("data", .obj [("token", .str "t2")])]) },
         .resp { status_code := 200,
                 body := some (.obj [("success", .bool true),
                                     ("data", .obj [("id", .str "p1")])]) }]
        "GET" "/posts/p1" none none 0).trace
      = [.request ⟨"GET", buildUrl "https://api.sma-platform.com/api" "/posts/p1",
                   .bearer "a", none, none⟩,
         .request ⟨"POST", buildUrl "https://api.sma-platform.com/api" "/auth/refresh",
                   .bearer "a", some (.obj [("refreshToken", .str "r")]), none⟩,
         .request ⟨"GET", buildUrl "https://api.sma-platform.com/api" "/posts/p1",
                   .bearer "t2", none, none⟩] := by
  have h := c1_amended_refresh_retry {} 0 1 "a" "r" none
    { status_code := 401, body := some (.obj []) }
    { status_code := 200,
      body := some (.obj [("success", .bool true),
                          ("data", .obj [("token", .str "t2")])]) }
    [.resp { status_code := 200,
             body := some (.obj [("success", .bool true),
                                 ("data", .obj [("id", .str "p1")])]) }]
    "GET" "/posts/p1" none none 0
    rfl (by decide) (by decide)
  exact h.2.1 ⟨"t2", some "r", some 900⟩ rfl

/-- C4 counterexample: a `refresh_token()` call invoked directly that
fails with `{success: false}` leaves the stale token pair in place, and
the next request executes WITH `Authorization: Bearer stale` and succeeds
— neither unauthenticated nor failing with an authentication error. -/
theorem c4_counterexample_stale_token_reuse :
    (refreshTokenOp {} 0 5 (some ⟨"stale", some "r", none⟩)
        [.resp { status_code := 200, body := some (.obj [("success", .bool false)]) }]).result
      = .error (mkSMAError "Token refresh failed" "TOKEN_REFRESH_FAILED") ∧
    (refreshTokenOp {} 0 5 (some ⟨"stale", some "r", none⟩)
        [.resp { status_code := 200, body := some (.obj [("success", .bool false)]) }]).tokens
      = some ⟨"stale", some "r", none⟩ ∧
    (makeRequest {} 0 5
        (refreshTokenOp {} 0 5 (some ⟨"stale", some "r", none⟩)
          [.resp { status_code := 200, body := some (.obj [("success", .bool false)]) }]).tokens
        [.resp { status_code := 200,
                 body := some (.obj [("success", .bool true),
                                     ("data", .obj [("id", .str "p")])]) }]
        "GET" "/posts" none none 0).trace.head?
      = some (.request ⟨"GET", buildUrl "https://api.sma-platform.com/api" "/posts",
                        .bearer "stale", none, none⟩) ∧
    (makeRequest {} 0 5
        (refreshTokenOp {} 0 5 (some ⟨"stale", some "r", none⟩)
          [.resp { status_code := 200, body := some (.obj [("success", .bool false)]) }]).tokens
        [.resp { status_code := 200,
                 body := some (.obj [("success", .bool true),
                                     ("data", .obj [("id", .str "p")])]) }]
        "GET" "/posts" none none 0).result
      = .ok (.obj [("success", .bool true), ("data", .obj [("id", .str "p")])]) :=
  ⟨rfl, rfl, rfl, rfl⟩

/-- C4 (amended): the token state holds at most one pair; when the refresh
performed inside `_make_request`'s 401 handler fails, the pair is cleared,
and any request issued from the cleared state carries no bearer header —
it falls back to the API key or to no auth header at all.  A
`refresh_token()` call failing when invoked directly, however, leaves the
stale pair in place (see the counterexample). -/
theorem c4_amended_cleared_after_handler_refresh_failure (cfg : SMAConfig)
    (now fuel : Nat) (ac rt : String) (oex : Option Nat)
    (r : HttpResponse) (rest oracle₂ : List TransportResult)
    (m ep m2 ep2 : String) (d p d2 p2 : Option Json) (rc rc2 fuel2 : Nat)
    (hr : r.status_code = 401) (hne : rt ≠ "")
    (hfail : ∃ e, (refreshTokenOp cfg now (fuel + 1)
        (some ⟨ac, some rt, oex⟩) rest).result = .error e) :
    (makeRequest cfg now (fuel + 2) (some ⟨ac, some rt, oex⟩)
        (.resp r :: rest) m ep d p rc).tokens = none ∧
    (makeRequest cfg now (fuel2 + 1) none oracle₂ m2 ep2 d2 p2 rc2).trace.head?
      = some (.request ⟨m2, buildUrl cfg.base_url ep2,
                        authHeaderFor none cfg.api_key, d2, p2⟩) ∧
    (∀ t' : String, authHeaderFor none cfg.api_key ≠ .bearer t') := by
  obtain ⟨e, he⟩ := hfail
  set tks : Option AuthTokens := some ⟨ac, some rt, oex⟩ with htks
  set R : RunResult Json := makeRequest cfg now (fuel + 1) tks rest
    "POST" "/auth/refresh" (some (.obj [("refreshToken", .str rt)])) none 0 with hRdef
  have hrto : refreshTokenOf tks = rt := by
    rw [htks]
    rfl
  have hRR : refreshTokenOp cfg now (fuel + 1) tks rest = finishRefresh now R := by
    rw [htks]
    simp only [refreshTokenOp, if_neg hne]
  have hcond : (decide (r.status_code = 401) && hasRefreshToken tks) = true := by
    simp [hr, hasRefreshToken, htks, hne]
  rw [hRR] at he
  refine ⟨?_, makeRequest_first_event cfg now fuel2 none oracle₂ m2 ep2 d2 p2 rc2, ?_⟩
  · rw [show (fuel + 2) = (fuel + 1) + 1 from rfl, makeRequest]
    simp only [takeOracle, hcond, if_true, hrto, ← hRdef, he]
    rw [apply_ite RunResult.tokens, ite_self]
  · intro t'
    cases hk : cfg.api_key with
    | none => simp [authHeaderFor]
    | some k =>
        by_cases hke : k = ""
        · simp [authHeaderFor, hke]
        · simp [authHeaderFor, hke]

/-- Witness for the amended C4: a 401 whose in-handler refresh gets a 500
clears the tokens; a request from the cleared state (no API key) carries
no auth header, never a bearer token. -/
theorem c4_amended_witness :
    (makeRequest {} 0 3 (some ⟨"a", some "r", none⟩)
        [.resp { status_code := 401, body := some (.obj []) },
         .resp { status_code := 500, body := some (.obj []) }]
        "GET" "/posts" none none 0).tokens = none ∧
    (makeRequest {} 0 1 none [.exn "z"] "GET" "/posts" none none 0).trace.head?
      = some (.request ⟨"GET", buildUrl "https://api.sma-platform.com/api" "/posts",
                        .noAuth, none, none⟩) ∧
    authHeaderFor none none ≠ .bearer "a" := by
  have h := c4_amended_cleared_after_handler_refresh_failure {} 0 1 "a" "r" none
    { status_code := 401, body := some (.obj []) }
    [.resp { status_code := 500, body := some (.obj []) }]
    [.exn "z"] "GET" "/posts" "GET" "/posts" none none none none 0 0 0
    rfl (by decide)
    ⟨{ message := .str "HTTP 500", code := .str "HTTP_ERROR", status_code := some 500,
       retryable := .bool false, retry_after := none, request_id := none,
       details := .obj [] }, rfl⟩
  exact ⟨h.1, h.2.1, h.2.2 "a"⟩
